import Mathlib

/-!
Formal model of the Rigved Explorer frontend logic (React/TypeScript),
shallowly embedded in Lean 4.

The embedding follows the source files:
  frontend/src/pages/AudioPlayerPage.tsx   (playback / verse synchronisation)
  frontend/src/pages/SearchPage.tsx        (search, browse, selection keys)
  frontend/src/pages/AIAssistant/AIAssistant.tsx (chat submission)

JavaScript numbers that the code only ever uses for exact arithmetic on
times and counts are modelled as rationals (times, durations, fractions)
and naturals/integers (indices, counts).  Asynchronous fetches are
modelled by passing the fetch outcome as an explicit argument; the list
of network requests a handler issues is returned alongside the new
state so that "performs no fetch" is expressible.
-/

/-- A verse of a hymn, mirroring `interface Rik` in AudioPlayerPage.tsx. -/
structure Rik where
  rik_number : Nat
  samhita_devanagari : String
  padapatha_devanagari : String
  transliteration : String
deriving Repr, DecidableEq

/-- A loaded hymn view, mirroring `interface SuktaView` in AudioPlayerPage.tsx. -/
structure SuktaView where
  mandala : Nat
  sukta : Nat
  audio_url : String
  riks : List Rik
deriving Repr, DecidableEq

/-- The `useState` fields of `AudioPlayerPage` that the playback logic reads
and writes (AudioPlayerPage.tsx lines 27-39).  `selectedMandala` and
`selectedSukta` are JS numbers where `0` is falsy; they are kept as naturals. -/
structure PlayerState where
  selectedMandala : Nat
  selectedSukta : Nat
  suktaView : Option SuktaView
  loading : Bool
  error : Option String
  isPlaying : Bool
  currentTime : ℚ
  duration : ℚ
  currentRikIndex : ℤ
  audioLoading : Bool
deriving Repr, DecidableEq

/-- The time-to-verse computation performed by the `timeupdate` handler
(AudioPlayerPage.tsx lines 146-148):
`timePerVerse = duration / riks.length; newIndex = Math.floor(time / timePerVerse)`. -/
def verseIndex (time duration : ℚ) (verseCount : Nat) : ℤ :=
  Int.floor (time / (duration / (verseCount : ℚ)))

/-- The `timeupdate` listener installed by the effect at AudioPlayerPage.tsx
lines 139-158: it only exists while `suktaView` is non-null; it stores the
media time and, when `duration > 0 && suktaView.riks.length > 0`, recomputes
`currentRikIndex` as the unclamped floor quotient. -/
def handleTimeUpdate (s : PlayerState) (time : ℚ) : PlayerState :=
  match s.suktaView with
  | none => s
  | some v =>
    if 0 < s.duration ∧ 0 < v.riks.length then
      { s with currentTime := time
               currentRikIndex := verseIndex time s.duration v.riks.length }
    else
      { s with currentTime := time }

/-- `handleProgressClick` (AudioPlayerPage.tsx lines 296-305), parametrised by
the click fraction `(e.clientX - rect.left) / rect.width`.  The guard
`if (!audioRef.current || !progressRef.current || !duration) return;` makes it
a no-op when `duration` is `0`.  It sets the elapsed time to
`percent * duration` and touches nothing else. -/
def handleProgressClick (f : ℚ) (s : PlayerState) : PlayerState :=
  if s.duration = 0 then s
  else { s with currentTime := f * s.duration }

/-- Outcome of the `fetch(.../view)` call inside `loadSukta`. -/
inductive LoadResult where
  | failure
  | success (v : SuktaView)
deriving Repr, DecidableEq

/-- `loadSukta` (AudioPlayerPage.tsx lines 222-249).  Guard: returns unchanged
when `selectedMandala` or `selectedSukta` is falsy.  Otherwise it resets
`isPlaying`, `currentRikIndex`, `currentTime` and clears `error` before the
fetch; on fetch failure it sets the load error; on success it stores the
fetched view unconditionally (there is no check that `riks` is non-empty).
`loading` is cleared in the `finally` block on both paths; `audioLoading`
stays set until the audio element reports readiness. -/
def loadSukta (s : PlayerState) (r : LoadResult) : PlayerState :=
  if s.selectedMandala = 0 ∨ s.selectedSukta = 0 then s
  else
    let s₁ := { s with loading := true, error := none, isPlaying := false,
                       currentRikIndex := 0, currentTime := 0, audioLoading := true }
    match r with
    | .failure => { s₁ with error := some "Failed to load sukta details", loading := false }
    | .success v => { s₁ with suktaView := some v, loading := false }

/-- `getCurrentRik` (AudioPlayerPage.tsx lines 342-347): returns `null` unless
`suktaView` is set and `suktaView.riks[currentRikIndex]` is defined, i.e. the
index is an integer in `[0, riks.length)`. -/
def getCurrentRik (s : PlayerState) : Option Rik :=
  match s.suktaView with
  | none => none
  | some v =>
    if h : 0 ≤ s.currentRikIndex ∧ s.currentRikIndex.toNat < v.riks.length then
      some (v.riks.get ⟨s.currentRikIndex.toNat, h.2⟩)
    else none

/-- The render guard for the current-verse card
(AudioPlayerPage.tsx line 444): `suktaView && !audioLoading && getCurrentRik()`. -/
def rendersCurrentVerseCard (s : PlayerState) : Bool :=
  s.suktaView.isSome && !s.audioLoading && (getCurrentRik s).isSome

/-- C1: as stated the claim is false; this is the amended version.  For every
elapsed time in `[0, duration)` (strictly before the end of the track), with
`duration > 0` and `verseCount ≥ 1`, the timeupdate mapping
`floor(elapsed / (duration / verseCount))` lands in `[0, verseCount-1]`.
The code performs no clamping, and at `elapsed = duration` the result is
`verseCount`, outside the valid range (see the counterexample theorem). -/
theorem verseIndex_range_amended (t d : ℚ) (n : Nat)
    (ht0 : 0 ≤ t) (htd : t < d) (hn : 1 ≤ n) :
    0 ≤ verseIndex t d n ∧ verseIndex t d n ≤ (n : ℤ) - 1 := by
  have hd : 0 < d := lt_of_le_of_lt ht0 htd
  have hnq : (0 : ℚ) < (n : ℚ) := by exact_mod_cast Nat.lt_of_lt_of_le Nat.zero_lt_one hn
  have hdn : 0 < d / (n : ℚ) := div_pos hd hnq
  constructor
  · exact Int.floor_nonneg.mpr (div_nonneg ht0 (le_of_lt hdn))
  · have hlt : t / (d / (n : ℚ)) < (n : ℚ) := by
      rw [div_lt_iff₀ hdn]
      have : (n : ℚ) * (d / (n : ℚ)) = d := by
        field_simp
      rw [this]
      exact htd
    have : verseIndex t d n < (n : ℤ) := by
      have := Int.floor_lt.mpr (by exact_mod_cast hlt)
      exact this
    omega

/-- C1 witness: concrete instance, 10 verses, 100-second track, elapsed 55. -/
theorem verseIndex_range_amended_witness :
    0 ≤ verseIndex 55 100 10 ∧ verseIndex 55 100 10 ≤ (10 : ℤ) - 1 :=
  verseIndex_range_amended 55 100 10 (by norm_num) (by norm_num) (by norm_num)

/-- C1 counterexample: the mapping is not clamped at the exact end of the
track.  With `duration = 10` and a single verse, `elapsed = 10` lies in
`[0, duration]` but the computed index is `1`, outside `[0, 0]`. -/
theorem verseIndex_not_clamped_at_end :
    verseIndex 10 10 1 = 1 ∧ ¬ verseIndex 10 10 1 ≤ (1 : ℤ) - 1 := by
  have h : verseIndex 10 10 1 = 1 := by
    unfold verseIndex
    norm_num
  exact ⟨h, by rw [h]; norm_num⟩

/-- C7: for a fixed positive duration and verse count at least 1, the
time-to-verse mapping is monotonically non-decreasing in the elapsed time
over `[0, duration]`. -/
theorem verseIndex_monotone (d : ℚ) (n : Nat) (t₁ t₂ : ℚ)
    (hd : 0 < d) (hn : 1 ≤ n) (h0 : 0 ≤ t₁) (h12 : t₁ ≤ t₂) (h2d : t₂ ≤ d) :
    verseIndex t₁ d n ≤ verseIndex t₂ d n := by
  have hnq : (0 : ℚ) < (n : ℚ) := by exact_mod_cast Nat.lt_of_lt_of_le Nat.zero_lt_one hn
  have hdn : 0 < d / (n : ℚ) := div_pos hd hnq
  have hq : t₁ / (d / (n : ℚ)) ≤ t₂ / (d / (n : ℚ)) := by gcongr
  exact Int.floor_mono hq

/-- C7 witness: concrete monotone instance on a 100-second, 10-verse track. -/
theorem verseIndex_monotone_witness :
    verseIndex 55 100 10 ≤ verseIndex 95 100 10 :=
  verseIndex_monotone 100 10 55 95 (by norm_num) (by norm_num) (by norm_num)
    (by norm_num) (by norm_num)

/-- A placeholder verse used to build concrete hymn views in witnesses. -/
def sampleRik (k : Nat) : Rik :=
  { rik_number := k, samhita_devanagari := "", padapatha_devanagari := "",
    transliteration := "" }

/-- A concrete ten-verse hymn view. -/
def sampleView10 : SuktaView :=
  { mandala := 1, sukta := 1, audio_url := "audio",
    riks := (List.range 10).map sampleRik }

/-- A concrete hymn view whose response contains no verses. -/
def emptySuktaView : SuktaView :=
  { mandala := 1, sukta := 1, audio_url := "audio", riks := [] }

/-- The initial `useState` values of `AudioPlayerPage`
(AudioPlayerPage.tsx lines 27-39). -/
def initialPlayerState : PlayerState :=
  { selectedMandala := 1, selectedSukta := 1, suktaView := none,
    loading := false, error := none, isPlaying := false,
    currentTime := 0, duration := 0, currentRikIndex := 0,
    audioLoading := false }

/-- A loaded mid-playback state: 10 verses, 100-second track, elapsed 55,
active verse index 5. -/
def samplePlayerState : PlayerState :=
  { selectedMandala := 1, selectedSukta := 1, suktaView := some sampleView10,
    loading := false, error := none, isPlaying := true,
    currentTime := 55, duration := 100, currentRikIndex := 5,
    audioLoading := false }

/-- C2: as stated the claim is false; this is the amended version.  A click on
the progress bar at fraction `f` sets the elapsed time to `f * duration` but
leaves the active verse index unchanged; the index is only recomputed by the
next `timeupdate` event of the media element, at which point it becomes the
unclamped `floor(f * duration / (duration / verseCount))`. -/
theorem handleProgressClick_amended (f : ℚ) (s : PlayerState) (v : SuktaView)
    (hv : s.suktaView = some v) (hd : 0 < s.duration)
    (hlen : 0 < v.riks.length) :
    (handleProgressClick f s).currentTime = f * s.duration ∧
    (handleProgressClick f s).currentRikIndex = s.currentRikIndex ∧
    (handleTimeUpdate (handleProgressClick f s) (f * s.duration)).currentRikIndex
      = verseIndex (f * s.duration) s.duration v.riks.length := by
  have hd0 : s.duration ≠ 0 := ne_of_gt hd
  constructor
  · simp [handleProgressClick, hd0]
  constructor
  · simp [handleProgressClick, hd0]
  · simp [handleProgressClick, hd0, handleTimeUpdate, hv, hd, hlen]

/-- C2 witness: in the 10-verse, 100-second scenario, clicking at fraction
0.95 sets elapsed time to 95 and the following timeupdate maps it to index 9. -/
theorem handleProgressClick_amended_witness :
    (handleProgressClick (19/20) samplePlayerState).currentTime
        = (19/20) * samplePlayerState.duration ∧
    (handleProgressClick (19/20) samplePlayerState).currentRikIndex
        = samplePlayerState.currentRikIndex ∧
    (handleTimeUpdate (handleProgressClick (19/20) samplePlayerState)
        ((19/20) * samplePlayerState.duration)).currentRikIndex
      = verseIndex ((19/20) * samplePlayerState.duration)
          samplePlayerState.duration sampleView10.riks.length :=
  handleProgressClick_amended (19/20) samplePlayerState sampleView10 rfl
    (by norm_num [samplePlayerState]) (by simp [sampleView10])

/-- C2 counterexample: in the 10-verse, 100-second scenario with active index
5, clicking the progress bar at fraction 0.95 sets the elapsed time to 95 but
the active verse index stays 5 within that operation — the handler does not
recompute it via the mapper, contradicting the claim that the index becomes 9
before the next timeupdate. -/
theorem handleProgressClick_stale_index :
    (handleProgressClick (19/20) samplePlayerState).currentTime = 95 ∧
    (handleProgressClick (19/20) samplePlayerState).currentRikIndex = 5 ∧
    ((5 : ℤ) = 9 → False) := by
  refine ⟨?_, ?_, by omega⟩
  · norm_num [handleProgressClick, samplePlayerState]
  · norm_num [handleProgressClick, samplePlayerState]

/-- C5: as stated the claim is false; this is the amended version.  With a
mandala and sukta selected, loading a hymn sets the load error exactly when
the remote fetch fails; a successful response is accepted even when it
contains no verses; on success the session is paused with elapsed time 0,
active verse index 0, no error, and the fetched view stored. -/
theorem loadSukta_amended (s : PlayerState)
    (hm : s.selectedMandala ≠ 0) (hs : s.selectedSukta ≠ 0) :
    (loadSukta s .failure).error = some "Failed to load sukta details" ∧
    ∀ v : SuktaView,
      (loadSukta s (.success v)).error = none ∧
      (loadSukta s (.success v)).isPlaying = false ∧
      (loadSukta s (.success v)).currentTime = 0 ∧
      (loadSukta s (.success v)).currentRikIndex = 0 ∧
      (loadSukta s (.success v)).suktaView = some v := by
  constructor
  · simp [loadSukta, hm, hs]
  · intro v
    refine ⟨?_, ?_, ?_, ?_, ?_⟩ <;> simp [loadSukta, hm, hs]

/-- C5 witness: loading from the initial page state, a failed fetch sets the
load error and a successful fetch of the ten-verse view resets the session. -/
theorem loadSukta_amended_witness :
    (loadSukta initialPlayerState .failure).error
        = some "Failed to load sukta details" ∧
    (loadSukta initialPlayerState (.success sampleView10)).error = none ∧
    (loadSukta initialPlayerState (.success sampleView10)).isPlaying = false ∧
    (loadSukta initialPlayerState (.success sampleView10)).currentTime = 0 ∧
    (loadSukta initialPlayerState (.success sampleView10)).currentRikIndex = 0 ∧
    (loadSukta initialPlayerState (.success sampleView10)).suktaView
      = some sampleView10 :=
  ⟨(loadSukta_amended initialPlayerState (by simp [initialPlayerState])
      (by simp [initialPlayerState])).1,
    (loadSukta_amended initialPlayerState (by simp [initialPlayerState])
      (by simp [initialPlayerState])).2 sampleView10⟩

/-- C5 counterexample: a successful fetch whose response contains no verses is
accepted without a load error — `loadSukta` stores the empty view and leaves
`error = none`, contradicting the claim that it fails with a load error. -/
theorem loadSukta_accepts_empty_riks :
    emptySuktaView.riks = [] ∧
    (loadSukta initialPlayerState (.success emptySuktaView)).error = none ∧
    (loadSukta initialPlayerState (.success emptySuktaView)).suktaView
      = some emptySuktaView := by
  refine ⟨rfl, ?_, ?_⟩ <;> simp [loadSukta, initialPlayerState]

/-- C9: whenever no hymn is loaded, or the current verse index lies outside
`[0, riks.length - 1]` (for example `riks.length` at the exact end of the
track), `getCurrentRik` returns `null` and the current-verse card is not
rendered. -/
theorem getCurrentRik_out_of_range (s : PlayerState)
    (h : ∀ v, s.suktaView = some v →
      s.currentRikIndex < 0 ∨ (v.riks.length : ℤ) ≤ s.currentRikIndex) :
    getCurrentRik s = none ∧ rendersCurrentVerseCard s = false := by
  have hnone : getCurrentRik s = none := by
    unfold getCurrentRik
    split
    · rfl
    · rename_i v heq
      rw [dif_neg]
      intro hcon
      obtain ⟨h1, h2⟩ := hcon
      rcases h v heq with hlt | hge
      · omega
      · omega
  refine ⟨hnone, ?_⟩
  simp [rendersCurrentVerseCard, hnone]

/-- C9 witness: at the exact end of the ten-verse track the index is 10,
one past the last valid index, and no current-verse card is rendered. -/
theorem getCurrentRik_out_of_range_witness :
    getCurrentRik { samplePlayerState with currentRikIndex := 10 } = none ∧
    rendersCurrentVerseCard { samplePlayerState with currentRikIndex := 10 }
      = false :=
  getCurrentRik_out_of_range { samplePlayerState with currentRikIndex := 10 }
    (by
      intro v hv
      simp only [samplePlayerState] at hv
      cases hv
      right
      simp [sampleView10])

/-- A search hit, mirroring `interface SearchResult` in SearchPage.tsx;
optional fields are `Option`-valued. -/
structure SearchResult where
  mandala : Nat
  sukta : Nat
  rik_number : Nat
  translation : Option String
  devanagari : Option String
  transliteration : Option String
  deity : Option String
deriving Repr, DecidableEq

/-- A `{ text: string }` leaf of the verse-detail payload. -/
structure TextUnit where
  text : String
deriving Repr, DecidableEq

/-- The `samhita` part of `interface VerseDetail` in SearchPage.tsx. -/
structure SamhitaDetail where
  devanagari : TextUnit
deriving Repr, DecidableEq

/-- The `padapatha` part of `interface VerseDetail` in SearchPage.tsx. -/
structure PadapathaDetail where
  devanagari : TextUnit
  transliteration : TextUnit
deriving Repr, DecidableEq

/-- A full verse detail, mirroring `interface VerseDetail` in SearchPage.tsx. -/
structure VerseDetail where
  rik_number : Nat
  samhita : SamhitaDetail
  padapatha : PadapathaDetail
  translation : String
  deity : String
deriving Repr, DecidableEq

/-- An entry of the mandala dropdown (`interface Mandala` in SearchPage.tsx). -/
structure SPMandala where
  id : Nat
  name : String
deriving Repr, DecidableEq

/-- An entry of the sukta dropdown (`interface Sukta` in SearchPage.tsx). -/
structure SPSukta where
  id : Nat
  name : String
deriving Repr, DecidableEq

/-- The `currentView` state: `'search' | 'browse'`. -/
inductive SPView where
  | search
  | browse
deriving Repr, DecidableEq

/-- The `activeDropdown` state: `'mandala' | 'sukta' | 'rik'` (or null). -/
inductive SPDropdown where
  | mandala
  | sukta
  | rik
deriving Repr, DecidableEq

/-- The `useState` fields of `SearchPage` (SearchPage.tsx lines 41-55). -/
structure SearchState where
  searchQuery : String
  selectedFields : List String
  searchResults : List SearchResult
  loading : Bool
  error : Option String
  selectedVerse : Option VerseDetail
  selectedVerseKey : Option String
  mandalas : List SPMandala
  selectedMandala : Option Nat
  suktas : List SPSukta
  selectedSukta : Option Nat
  riks : List Nat
  currentView : SPView
  activeDropdown : Option SPDropdown
  exporting : Bool
deriving Repr, DecidableEq

/-- A network request issued by a SearchPage handler. -/
inductive FetchRequest where
  | searchReq (query : String) (page : Nat) (pageSize : Nat) (fields : List String)
  | verseDetailReq (mandala : Nat) (sukta : Nat) (rik : Nat)
deriving Repr, DecidableEq

/-- JavaScript `String.prototype.trim()`: drops leading and trailing
whitespace.  Written over the character list so that it evaluates by
kernel reduction. -/
def jsTrim (s : String) : String :=
  ((s.data.dropWhile Char.isWhitespace).reverse.dropWhile
      Char.isWhitespace).reverse.asString

/-- `handleSearch` (SearchPage.tsx lines 147-175).  The guard
`if (!searchQuery.trim()) return;` makes it a no-op (no fetch, state
untouched) for blank queries.  Otherwise one `/search` fetch is issued with
the query, the page number and the hard-coded `page_size: '10'`; a successful
response replaces the results and clears selection; a failed fetch sets the
error message.  No pagination metadata is stored in either case. -/
def handleSearch (s : SearchState) (page : Nat)
    (outcome : Option (List SearchResult)) : SearchState × List FetchRequest :=
  if jsTrim s.searchQuery = "" then (s, [])
  else
    let req := FetchRequest.searchReq s.searchQuery page 10 s.selectedFields
    match outcome with
    | none =>
        ({ s with loading := false,
                  error := some "Search failed. Please try again." }, [req])
    | some results =>
        ({ s with loading := false, error := none, searchResults := results,
                  selectedVerse := none, selectedVerseKey := none,
                  currentView := .search }, [req])

/-- `fetchVerseDetail` (SearchPage.tsx lines 132-145): issues one detail
fetch; on success it stores the detail, records the caller-supplied result
key as the current selection and closes the dropdown; on failure it sets the
error message and leaves the selection alone. -/
def fetchVerseDetail (s : SearchState) (m su r : Nat) (key : String)
    (outcome : Option VerseDetail) : SearchState × List FetchRequest :=
  let req := FetchRequest.verseDetailReq m su r
  match outcome with
  | some d =>
      ({ s with loading := false, selectedVerse := some d,
                selectedVerseKey := some key, activeDropdown := none }, [req])
  | none =>
      ({ s with loading := false,
                error := some "Failed to fetch verse details" }, [req])

/-- The selection key built by `handleSearchResultClick`
(SearchPage.tsx line 290): the template literal `search-result-i`,
a function of the list position only. -/
def searchResultKey (i : Nat) : String :=
  "search-result-" ++ Nat.repr i

/-- The selection key built by `handleRikSelect` (SearchPage.tsx line 284):
the template literal `mandala-M-sukta-S-rik-R`. -/
def rikSelectKey (m su r : Nat) : String :=
  "mandala-" ++ Nat.repr m ++ "-sukta-" ++ Nat.repr su ++ "-rik-" ++ Nat.repr r

/-- `handleSearchResultClick` (SearchPage.tsx lines 289-298): clicking the
result at position `i` toggles the selection off (no fetch) when its key is
the currently selected one, and otherwise delegates to `fetchVerseDetail`
with that key. -/
def handleSearchResultClick (s : SearchState) (result : SearchResult) (i : Nat)
    (outcome : Option VerseDetail) : SearchState × List FetchRequest :=
  let resultKey := searchResultKey i
  if s.selectedVerseKey = some resultKey then
    ({ s with selectedVerse := none, selectedVerseKey := none }, [])
  else
    fetchVerseDetail s result.mandala result.sukta result.rik_number resultKey
      outcome

/-- `handleRikSelect` (SearchPage.tsx lines 282-287): with a mandala and a
sukta selected, fetches the verse detail under the reference-derived key. -/
def handleRikSelect (s : SearchState) (r : Nat)
    (outcome : Option VerseDetail) : SearchState × List FetchRequest :=
  match s.selectedMandala, s.selectedSukta with
  | some m, some su => fetchVerseDetail s m su r (rikSelectKey m su r) outcome
  | _, _ => (s, [])

/-- The initial `useState` values of `SearchPage` (SearchPage.tsx lines 41-55). -/
def initialSearchState : SearchState :=
  { searchQuery := "", selectedFields := ["translation"], searchResults := [],
    loading := false, error := none, selectedVerse := none,
    selectedVerseKey := none, mandalas := [], selectedMandala := none,
    suktas := [], selectedSukta := none, riks := [], currentView := .search,
    activeDropdown := none, exporting := false }

/-- C6: for every query that is empty or whitespace only (i.e. trims to the
empty string), `handleSearch` issues no fetch and returns the state
unchanged — results, selection and all other fields are untouched. -/
theorem handleSearch_blank_noop (s : SearchState) (page : Nat)
    (outcome : Option (List SearchResult)) (h : jsTrim s.searchQuery = "") :
    handleSearch s page outcome = (s, []) := by
  simp [handleSearch, h]

/-- C6 witness: a whitespace-only query on the initial state is a no-op. -/
theorem handleSearch_blank_noop_witness :
    handleSearch { initialSearchState with searchQuery := "   " } 1 none
      = ({ initialSearchState with searchQuery := "   " }, []) :=
  handleSearch_blank_noop { initialSearchState with searchQuery := "   " } 1
    none (by decide)

/-- A concrete search hit at reference (1, 1, 2). -/
def sampleSearchResult : SearchResult :=
  { mandala := 1, sukta := 1, rik_number := 2, translation := some "t",
    devanagari := none, transliteration := none, deity := some "Agni" }

/-- A concrete verse detail payload. -/
def sampleVerseDetail : VerseDetail :=
  { rik_number := 2, samhita := { devanagari := { text := "s" } },
    padapatha := { devanagari := { text := "p" },
                   transliteration := { text := "pt" } },
    translation := "t", deity := "Agni" }

/-- C3: clicking a search result whose key equals the current selection
clears the selection and issues no fetch; clicking one whose key differs
issues exactly one detail fetch and, when that fetch succeeds, records the
clicked key as selected with the fetched detail. -/
theorem handleSearchResultClick_toggle (s : SearchState) (result : SearchResult)
    (i : Nat) (outcome : Option VerseDetail) :
    (s.selectedVerseKey = some (searchResultKey i) →
      handleSearchResultClick s result i outcome
        = ({ s with selectedVerse := none, selectedVerseKey := none }, [])) ∧
    (s.selectedVerseKey ≠ some (searchResultKey i) →
      (handleSearchResultClick s result i outcome).2
          = [FetchRequest.verseDetailReq result.mandala result.sukta
               result.rik_number] ∧
      ∀ d, outcome = some d →
        (handleSearchResultClick s result i outcome).1.selectedVerseKey
            = some (searchResultKey i) ∧
        (handleSearchResultClick s result i outcome).1.selectedVerse
            = some d) := by
  constructor
  · intro h
    simp [handleSearchResultClick, h]
  · intro h
    constructor
    · cases outcome <;> simp [handleSearchResultClick, fetchVerseDetail, h]
    · intro d hd
      subst hd
      constructor <;> simp [handleSearchResultClick, fetchVerseDetail, h]

/-- C3 witness: with `search-result-2` selected, clicking position 2 again
clears the selection with no fetch; from the initial (unselected) state,
clicking position 2 issues exactly one detail fetch and selects that key. -/
theorem handleSearchResultClick_toggle_witness :
    handleSearchResultClick
        { initialSearchState with
            selectedVerseKey := some (searchResultKey 2),
            selectedVerse := some sampleVerseDetail }
        sampleSearchResult 2 (some sampleVerseDetail)
      = ({ { initialSearchState with
               selectedVerseKey := some (searchResultKey 2),
               selectedVerse := some sampleVerseDetail } with
             selectedVerse := none, selectedVerseKey := none }, []) ∧
    (handleSearchResultClick initialSearchState sampleSearchResult 2
        (some sampleVerseDetail)).2 = [FetchRequest.verseDetailReq 1 1 2] ∧
    (handleSearchResultClick initialSearchState sampleSearchResult 2
        (some sampleVerseDetail)).1.selectedVerseKey
      = some (searchResultKey 2) := by
  refine ⟨?_, ?_, ?_⟩
  · exact (handleSearchResultClick_toggle _ sampleSearchResult 2
      (some sampleVerseDetail)).1 rfl
  · exact ((handleSearchResultClick_toggle initialSearchState sampleSearchResult
      2 (some sampleVerseDetail)).2 (by simp [initialSearchState])).1
  · exact (((handleSearchResultClick_toggle initialSearchState sampleSearchResult
      2 (some sampleVerseDetail)).2 (by simp [initialSearchState])).2
      sampleVerseDetail rfl).1

/-- A citation verse returned by the question-answering endpoint
(`interface ContextVerse` in AIAssistant.tsx). -/
structure ContextVerse where
  mandala : Nat
  sukta : Nat
  rik_number : Nat
  translation : Option String
  devanagari : Option String
  transliteration : Option String
  deity : Option String
deriving Repr, DecidableEq

/-- The question-answering response (`interface AIResponse` in AIAssistant.tsx). -/
structure AIResponse where
  query : String
  context : List ContextVerse
  answer : String
deriving Repr, DecidableEq

/-- The `type` discriminator of a chat message: `'user' | 'assistant'`. -/
inductive MsgType where
  | user
  | assistant
deriving Repr, DecidableEq

/-- A chat transcript entry (`interface Message` in AIAssistant.tsx); the
`Date.now()` timestamp is abstracted to the natural number `now` passed to
the handler, and `id` is its decimal string as in `Date.now().toString()`. -/
structure AIMessage where
  id : String
  typ : MsgType
  content : String
  timestamp : Nat
  context : Option (List ContextVerse)
deriving Repr, DecidableEq

/-- The currently inspected citation (`interface SelectedVerse`). -/
structure AISelectedVerse where
  detail : VerseDetail
  context : ContextVerse
deriving Repr, DecidableEq

/-- The `useState` fields of `AIAssistant` that `handleSubmit` reads and
writes (AIAssistant.tsx lines 50-59). -/
structure AIState where
  query : String
  maxResults : Nat
  selectedFields : List String
  messages : List AIMessage
  loading : Bool
  error : Option String
  selectedVerse : Option AISelectedVerse
  expandedVerses : List String
deriving Repr, DecidableEq

/-- The synchronous half of `handleSubmit` (AIAssistant.tsx lines 113-129),
up to the `fetch`.  The guard `if (!query.trim() || loading) return;` rejects
blank queries and re-entry while a question is in flight.  An accepted
submission appends the user message, sets `loading` and clears the error,
the inspected verse and the expansion set.  The returned flag records
whether the submission was accepted, i.e. whether the `/ai-assistant` fetch
is issued. -/
def handleSubmitStart (s : AIState) (now : Nat) : AIState × Bool :=
  if jsTrim s.query = "" ∨ s.loading then (s, false)
  else
    ({ s with
        messages := s.messages ++
          [{ id := Nat.repr now, typ := .user, content := s.query,
             timestamp := now, context := none }],
        loading := true, error := none, selectedVerse := none,
        expandedVerses := [] }, true)

/-- The continuation of `handleSubmit` after the fetch resolves
(AIAssistant.tsx lines 130-168): on success it appends the assistant message
built from the response and clears the input; on failure it sets the error
message; the `finally` block clears `loading` on both paths. -/
def handleSubmitFinish (s : AIState) (now : Nat)
    (outcome : Option AIResponse) : AIState :=
  match outcome with
  | some data =>
      { s with
          messages := s.messages ++
            [{ id := Nat.repr (now + 1), typ := .assistant,
               content := data.answer, timestamp := now,
               context := some data.context }],
          query := "", loading := false }
  | none =>
      { s with error := some "Failed to get AI response. Please try again.",
               loading := false }

/-- C10: submitting a question is a no-op while the query is blank or a
question is already loading (so a second submission during a flight is
rejected and at most one question-answering request is in flight); an
accepted submission appends exactly one user message and raises `loading`
before the fetch, and after the fetch resolves `loading` is cleared and at
most one assistant message has been appended — exactly one on success, none
on failure. -/
theorem handleSubmit_flight_invariants (s : AIState) (now k : Nat)
    (outcome : Option AIResponse) :
    (jsTrim s.query = "" ∨ s.loading = true →
      handleSubmitStart s now = (s, false)) ∧
    (jsTrim s.query ≠ "" → s.loading = false →
      (handleSubmitStart s now).2 = true ∧
      (handleSubmitStart s now).1.loading = true ∧
      (handleSubmitStart s now).1.messages
        = s.messages ++
            [{ id := Nat.repr now, typ := .user, content := s.query,
               timestamp := now, context := none }] ∧
      (handleSubmitStart (handleSubmitStart s now).1 k).2 = false ∧
      (handleSubmitFinish (handleSubmitStart s now).1 now outcome).loading
        = false ∧
      ((outcome = none →
          (handleSubmitFinish (handleSubmitStart s now).1 now outcome).messages
            = (handleSubmitStart s now).1.messages) ∧
        ∀ data, outcome = some data →
          (handleSubmitFinish (handleSubmitStart s now).1 now outcome).messages
            = (handleSubmitStart s now).1.messages ++
                [{ id := Nat.repr (now + 1), typ := .assistant,
                   content := data.answer, timestamp := now,
                   context := some data.context }])) := by
  constructor
  · intro h
    have : jsTrim s.query = "" ∨ s.loading = true := h
    unfold handleSubmitStart
    rcases this with h1 | h2
    · simp [h1]
    · simp [h2]
  · intro hq hl
    have hcond : ¬ (jsTrim s.query = "" ∨ s.loading = true) := by
      simp [hq, hl]
    refine ⟨?_, ?_, ?_, ?_, ?_, ?_, ?_⟩
    · simp [handleSubmitStart, hq, hl]
    · simp [handleSubmitStart, hq, hl]
    · simp [handleSubmitStart, hq, hl]
    · simp [handleSubmitStart, hq, hl]
    · cases outcome <;> simp [handleSubmitStart, handleSubmitFinish, hq, hl]
    · intro h
      subst h
      simp [handleSubmitFinish]
    · intro data h
      subst h
      simp [handleSubmitFinish]

/-- The initial `useState` values of `AIAssistant` (AIAssistant.tsx lines 50-59). -/
def initialAIState : AIState :=
  { query := "", maxResults := 5, selectedFields := ["translation"],
    messages := [], loading := false, error := none, selectedVerse := none,
    expandedVerses := [] }

/-- A concrete question-answering response. -/
def sampleAIResponse : AIResponse :=
  { query := "Who is Agni?", context := [], answer := "Agni is the fire deity." }

/-- C10 witness: a blank submission on the initial state is rejected, and a
submission of a concrete question from the idle state is accepted with the
stated message and loading behaviour. -/
theorem handleSubmit_flight_invariants_witness :
    (handleSubmitStart { initialAIState with query := "  " } 7
        = ({ initialAIState with query := "  " }, false)) ∧
    ((handleSubmitStart { initialAIState with query := "Who is Agni?" } 7).2
        = true ∧
      (handleSubmitStart { initialAIState with query := "Who is Agni?" } 7).1.loading
        = true ∧
      (handleSubmitStart
          (handleSubmitStart { initialAIState with query := "Who is Agni?" } 7).1
          9).2 = false ∧
      (handleSubmitFinish
          (handleSubmitStart { initialAIState with query := "Who is Agni?" } 7).1
          7 (some sampleAIResponse)).loading = false) := by
  constructor
  · exact (handleSubmit_flight_invariants { initialAIState with query := "  " }
      7 9 (some sampleAIResponse)).1 (Or.inl (by decide))
  · have h := (handleSubmit_flight_invariants
      { initialAIState with query := "Who is Agni?" } 7 9
      (some sampleAIResponse)).2 (by decide) rfl
    exact ⟨h.1, h.2.1, h.2.2.2.1, h.2.2.2.2.1⟩

/-!
Injectivity of the decimal numeral component of the selection keys.
`Nat.repr` is the embedding of the JavaScript number-to-string coercion in
the template literals; the lemmas below recover the number from the string,
so that equalities between keys can be decomposed.
-/

/-- `Nat.toDigitsCore` only uses its accumulator by consing in front of it. -/
theorem toDigitsCore_shift (fuel n : Nat) (ds : List Char) :
    Nat.toDigitsCore 10 fuel n ds = Nat.toDigitsCore 10 fuel n [] ++ ds := by
  induction fuel generalizing n ds with
  | zero => simp [Nat.toDigitsCore]
  | succ f ih =>
    simp only [Nat.toDigitsCore]
    by_cases h : n / 10 = 0
    · simp [h]
    · simp only [h, if_false]
      rw [ih (n / 10) (Nat.digitChar (n % 10) :: ds),
          ih (n / 10) [Nat.digitChar (n % 10)]]
      simp

/-- Numeric value of a decimal digit character. -/
def digitVal (c : Char) : Nat := c.toNat - 48

/-- Decode a most-significant-first list of decimal digit characters. -/
def decodeDigits (l : List Char) : Nat :=
  l.foldl (fun a c => 10 * a + digitVal c) 0

theorem digitVal_digitChar (n : Nat) (h : n < 10) :
    digitVal (Nat.digitChar n) = n := by
  interval_cases n <;> decide

theorem decodeDigits_append (l : List Char) (c : Char) :
    decodeDigits (l ++ [c]) = 10 * decodeDigits l + digitVal c := by
  simp [decodeDigits, List.foldl_append]

/-- `decodeDigits` is a left inverse of `Nat.toDigitsCore` given enough fuel. -/
theorem decode_toDigitsCore (fuel : Nat) : ∀ n : Nat, n < fuel →
    decodeDigits (Nat.toDigitsCore 10 fuel n []) = n := by
  induction fuel with
  | zero => intro n h; omega
  | succ f ih =>
    intro n h
    simp only [Nat.toDigitsCore]
    by_cases h0 : n / 10 = 0
    · simp only [h0, if_true]
      simp [decodeDigits, digitVal_digitChar (n % 10) (by omega)]
      omega
    · simp only [h0, if_false]
      rw [toDigitsCore_shift, decodeDigits_append,
          ih (n / 10) (by omega), digitVal_digitChar (n % 10) (by omega)]
      omega

theorem decode_toDigits (n : Nat) : decodeDigits (Nat.toDigits 10 n) = n :=
  decode_toDigitsCore (n + 1) n (Nat.lt_succ_self n)

/-- Two numbers with the same decimal string are equal. -/
theorem nat_repr_data_inj {m n : Nat}
    (h : (Nat.repr m).data = (Nat.repr n).data) : m = n := by
  have hd : Nat.toDigits 10 m = Nat.toDigits 10 n := by
    simpa [Nat.repr, List.asString] using h
  calc m = decodeDigits (Nat.toDigits 10 m) := (decode_toDigits m).symm
    _ = decodeDigits (Nat.toDigits 10 n) := by rw [hd]
    _ = n := decode_toDigits n

theorem digitChar_isDigit (n : Nat) (h : n < 10) :
    (Nat.digitChar n).isDigit = true := by
  interval_cases n <;> decide

/-- Every character produced by `Nat.toDigitsCore` over a digit accumulator
is a decimal digit. -/
theorem toDigitsCore_digits (fuel : Nat) : ∀ (n : Nat) (ds : List Char),
    (∀ c ∈ ds, c.isDigit = true) →
    ∀ c ∈ Nat.toDigitsCore 10 fuel n ds, c.isDigit = true := by
  induction fuel with
  | zero => intro n ds hds; simpa [Nat.toDigitsCore] using hds
  | succ f ih =>
    intro n ds hds
    simp only [Nat.toDigitsCore]
    by_cases h0 : n / 10 = 0
    · simp only [h0, if_true]
      intro c hc
      rcases List.mem_cons.mp hc with hc | hc
      · rw [hc]; exact digitChar_isDigit (n % 10) (by omega)
      · exact hds c hc
    · simp only [h0, if_false]
      apply ih
      intro c hc
      rcases List.mem_cons.mp hc with hc | hc
      · rw [hc]; exact digitChar_isDigit (n % 10) (by omega)
      · exact hds c hc

/-- Every character of a decimal numeral is a digit. -/
theorem repr_data_digits (n : Nat) :
    ∀ c ∈ (Nat.repr n).data, c.isDigit = true := by
  have h : (Nat.repr n).data = Nat.toDigits 10 n := by
    simp [Nat.repr, List.asString]
  rw [h]
  exact toDigitsCore_digits (n + 1) n [] (by simp)

/-- Splitting at a non-digit separator following a digit run is unambiguous. -/
theorem digits_append_sep_inj (sep : Char) (hsep : sep.isDigit = false) :
    ∀ (a b c d : List Char), (∀ x ∈ a, x.isDigit = true) →
      (∀ x ∈ b, x.isDigit = true) →
      a ++ sep :: c = b ++ sep :: d → a = b ∧ c = d := by
  intro a
  induction a with
  | nil =>
    intro b c d _ hb h
    cases b with
    | nil => simpa using h
    | cons y ys =>
      exfalso
      simp only [List.nil_append, List.cons_append, List.cons.injEq] at h
      have hy := hb y (by simp)
      rw [← h.1] at hy
      rw [hsep] at hy
      exact Bool.noConfusion hy
  | cons x xs ih =>
    intro b c d ha hb h
    cases b with
    | nil =>
      exfalso
      simp only [List.nil_append, List.cons_append, List.cons.injEq] at h
      have hx := ha x (by simp)
      rw [h.1] at hx
      rw [hsep] at hx
      exact Bool.noConfusion hx
    | cons y ys =>
      simp only [List.cons_append, List.cons.injEq] at h
      obtain ⟨hxy, htail⟩ := h
      have hih := ih ys c d (fun z hz => ha z (by simp [hz]))
        (fun z hz => hb z (by simp [hz])) htail
      exact ⟨by rw [hxy, hih.1], hih.2⟩

/-- The position-derived search key determines the position. -/
theorem searchResultKey_inj {i j : Nat}
    (h : searchResultKey i = searchResultKey j) : i = j := by
  have hd := congrArg String.data h
  simp only [searchResultKey, String.data_append] at hd
  exact nat_repr_data_inj (String.ext_iff.mp
    (String.ext (List.append_cancel_left hd)))

/-- The reference-derived browse key determines the full verse reference. -/
theorem rikSelectKey_inj {m su r m2 su2 r2 : Nat}
    (h : rikSelectKey m su r = rikSelectKey m2 su2 r2) :
    m = m2 ∧ su = su2 ∧ r = r2 := by
  have hd := congrArg String.data h
  simp only [rikSelectKey, String.data_append, List.append_assoc] at hd
  have hd2 := List.append_cancel_left hd
  simp only [List.cons_append] at hd2
  obtain ⟨h1, h2⟩ := digits_append_sep_inj '-' (by decide) _ _ _ _
    (repr_data_digits m) (repr_data_digits m2) hd2
  simp only [List.cons.injEq, true_and] at h2
  obtain ⟨h4, h5⟩ := digits_append_sep_inj '-' (by decide) _ _ _ _
    (repr_data_digits su) (repr_data_digits su2) h2
  simp only [List.cons.injEq, true_and] at h5
  exact ⟨nat_repr_data_inj h1, nat_repr_data_inj h4, nat_repr_data_inj h5⟩

/-- C8: as stated the claim is false; this is the amended version.  The
browse-list key `mandala-M-sukta-S-rik-R` is a deterministic function of the
verse reference, and two browse keys are equal iff the references agree
componentwise; the search-result key `search-result-i` is a deterministic
function of the result's list position only, and two search-result keys are
equal iff the positions are equal — so re-selecting the same position always
reuses the same key, but the same verse reference shown at two different
positions gets two different keys (see the counterexample theorem). -/
theorem selection_keys_amended :
    (∀ m su r m2 su2 r2 : Nat,
        rikSelectKey m su r = rikSelectKey m2 su2 r2
          ↔ (m = m2 ∧ su = su2 ∧ r = r2)) ∧
    (∀ i j : Nat, searchResultKey i = searchResultKey j ↔ i = j) := by
  constructor
  · intro m su r m2 su2 r2
    constructor
    · exact rikSelectKey_inj
    · rintro ⟨rfl, rfl, rfl⟩
      rfl
  · intro i j
    constructor
    · exact searchResultKey_inj
    · rintro rfl
      rfl

/-- C8 counterexample: the search-result selection key is not a function of
the verse reference.  With the same result — the same verse reference, from
the same list — shown at positions 0 and 1, the two keys differ; hence with
position 0 selected, clicking the identical result at position 1 does not
toggle the selection off but issues a fresh detail fetch. -/
theorem searchResultKey_ignores_reference :
    searchResultKey 0 ≠ searchResultKey 1 ∧
    (handleSearchResultClick
        { initialSearchState with
            searchResults := [sampleSearchResult, sampleSearchResult],
            selectedVerseKey := some (searchResultKey 0),
            selectedVerse := some sampleVerseDetail }
        sampleSearchResult 1 (some sampleVerseDetail)).2
      = [FetchRequest.verseDetailReq 1 1 2] := by
  have hne : searchResultKey 0 ≠ searchResultKey 1 := by decide
  refine ⟨hne, ?_⟩
  have hcond : some (searchResultKey 0) ≠ some (searchResultKey 1) := by
    intro hc
    exact hne (Option.some.inj hc)
  simp [handleSearchResultClick, fetchVerseDetail, hcond, sampleSearchResult]

/-- C8 witness: the amended key laws at concrete inputs — the browse key for
reference (1, 2, 3) only matches itself and the search keys for positions 0
and 1 are distinct. -/
theorem selection_keys_amended_witness :
    (rikSelectKey 1 2 3 = rikSelectKey 1 2 3 ↔ (1 = 1 ∧ 2 = 2 ∧ 3 = 3)) ∧
    (searchResultKey 0 = searchResultKey 1 ↔ 0 = 1) :=
  ⟨selection_keys_amended.1 1 2 3 1 2 3, selection_keys_amended.2 0 1⟩
